import Mathlib

/-!
Verification of the solution-stream parser and pipeline orchestration of
pymzn (src/pymzn/mzn/minizinc.py), shallowly embedded in Lean.
-/

namespace PyMzn

/-- Sentinel constants of solns2out (minizinc.py lines 198-202). -/
def soln_sep : String := "----------"

def search_complete_msg : String := "=========="

def unsat_msg : String := "=====UNSATISFIABLE====="

def unkn_msg : String := "=====UNKNOWN====="

def unbnd_msg : String := "=====UNBOUNDED====="

/-- ASCII whitespace, the characters removed by Python str.strip on the
streams at hand (the model restricts Python whitespace to the ASCII set). -/
def isSpaceChar (c : Char) : Bool :=
  c = ' ' || c = '\t' || c = '\n' || c = '\r' || c = '\x0b' || c = '\x0c'

/-- Python str.strip(): remove leading and trailing whitespace. -/
def pyStrip (s : String) : String :=
  String.mk (((s.toList.dropWhile isSpaceChar).reverse.dropWhile isSpaceChar).reverse)

/-- Helper for pySplit: accumulate characters of the current piece (in
reverse) and cut at each separator character. -/
def splitCharAux (sep : Char) : List Char → List Char → List String
  | acc, [] => [String.mk acc.reverse]
  | acc, c :: cs =>
    if c = sep then String.mk acc.reverse :: splitCharAux sep [] cs
    else splitCharAux sep (c :: acc) cs

/-- Python str.split(sep) for a one-character separator: no merging of
adjacent separators, and the empty string splits to a single empty piece. -/
def pySplit (sep : Char) (s : String) : List String :=
  splitCharAux sep [] s.toList

/-- Python sep.join(list). -/
def pyJoin (sep : String) : List String → String
  | [] => ""
  | [x] => x
  | x :: xs => x ++ sep ++ pyJoin sep xs

/-- Outcome of a fatal terminal sentinel in the solution stream. -/
inductive MznOutcome where
  | unsatisfiable
  | unknown
  | unbounded
deriving DecidableEq, Repr

/-- Result of the line scan of solns2out (minizinc.py lines 217-237).
A Python run either returns the list of solutions (ok) or raises one of the
three MiniZinc errors; the fatal constructor additionally records the value
of the local variable solns at the moment of the raise, so that invariants
about the internal state at that point can be stated.  The raised exception
is the only thing the Python caller observes on the fatal path. -/
inductive ScanResult where
  | ok (solns : List String)
  | fatal (outcome : MznOutcome) (solnsAtRaise : List String)
deriving DecidableEq, Repr

/-- The loop of minizinc.py lines 220-236: solns and curr_out are the
accumulators, the third argument is the list of remaining input lines. -/
def scanLoop : List String → List String → List String → ScanResult
  | solns, _, [] => .ok solns
  | solns, curr, l :: rest =>
    if pyStrip l = soln_sep then
      scanLoop (solns ++ [pyJoin "\n" curr]) [] rest
    else if pyStrip l = search_complete_msg then .ok solns
    else if pyStrip l = unkn_msg then .fatal .unknown solns
    else if pyStrip l = unsat_msg then .fatal .unsatisfiable solns
    else if pyStrip l = unbnd_msg then .fatal .unbounded solns
    else scanLoop solns (curr ++ [pyStrip l]) rest

/-- Lines 217-237 of minizinc.py: split the tool output on newlines and run
the scan with empty accumulators. -/
def solns2out_scan (out : String) : ScanResult :=
  scanLoop [] [] (pySplit '\n' out)

/-- A line whose stripped form is none of the five sentinels; such a line is
appended to the current accumulator by the scan. -/
def IsContentLine (l : String) : Prop :=
  pyStrip l ≠ soln_sep ∧ pyStrip l ≠ search_complete_msg ∧
  pyStrip l ≠ unkn_msg ∧ pyStrip l ≠ unsat_msg ∧ pyStrip l ≠ unbnd_msg

instance (l : String) : Decidable (IsContentLine l) := by
  unfold IsContentLine; infer_instance

/-- The sentinel line corresponding to each fatal outcome. -/
def sentinelOf : MznOutcome → String
  | .unsatisfiable => unsat_msg
  | .unknown => unkn_msg
  | .unbounded => unbnd_msg

/-- The solution text produced from a closed block of raw input lines. -/
def mkSoln (b : List String) : String :=
  pyJoin "\n" (b.map pyStrip)

/-- The stream lines encoding a list of solution blocks, each block closed
by a separator line. -/
def blockStream (blocks : List (List String)) : List String :=
  blocks.flatMap (fun b => b ++ [soln_sep])

section ScanLemmas

theorem scanLoop_nil (solns curr : List String) :
    scanLoop solns curr [] = .ok solns := rfl

theorem scanLoop_cons_content (solns curr : List String) (l : String)
    (rest : List String) (h : IsContentLine l) :
    scanLoop solns curr (l :: rest) = scanLoop solns (curr ++ [pyStrip l]) rest := by
  obtain ⟨h1, h2, h3, h4, h5⟩ := h
  simp [scanLoop, h1, h2, h3, h4, h5]

theorem scanLoop_cons_sep (solns curr : List String) (l : String)
    (rest : List String) (h : pyStrip l = soln_sep) :
    scanLoop solns curr (l :: rest) =
      scanLoop (solns ++ [pyJoin "\n" curr]) [] rest := by
  simp [scanLoop, h]

theorem scanLoop_cons_complete (solns curr : List String) (l : String)
    (rest : List String) (h : pyStrip l = search_complete_msg) :
    scanLoop solns curr (l :: rest) = .ok solns := by
  simp [scanLoop, h, soln_sep, search_complete_msg]

theorem scanLoop_cons_fatal (solns curr : List String) (l : String)
    (rest : List String) (k : MznOutcome) (h : pyStrip l = sentinelOf k) :
    scanLoop solns curr (l :: rest) = .fatal k solns := by
  cases k <;>
    simp [scanLoop, h, sentinelOf, soln_sep, search_complete_msg,
      unsat_msg, unkn_msg, unbnd_msg]

theorem scanLoop_content_run (ls : List String)
    (h : ∀ l ∈ ls, IsContentLine l) :
    ∀ solns curr rest, scanLoop solns curr (ls ++ rest) =
      scanLoop solns (curr ++ ls.map pyStrip) rest := by
  induction ls with
  | nil => intro solns curr rest; simp
  | cons l ls ih =>
    intro solns curr rest
    rw [List.cons_append,
      scanLoop_cons_content solns curr l (ls ++ rest) (h l (by simp)),
      ih (fun x hx => h x (by simp [hx])) solns (curr ++ [pyStrip l]) rest]
    simp

theorem scanLoop_blocks (blocks : List (List String))
    (h : ∀ b ∈ blocks, ∀ l ∈ b, IsContentLine l) :
    ∀ solns rest, scanLoop solns [] (blockStream blocks ++ rest) =
      scanLoop (solns ++ blocks.map mkSoln) [] rest := by
  induction blocks with
  | nil => intro solns rest; simp [blockStream]
  | cons b bs ih =>
    intro solns rest
    have hstream : blockStream (b :: bs) ++ rest =
        b ++ (soln_sep :: (blockStream bs ++ rest)) := by
      simp [blockStream]
    rw [hstream,
      scanLoop_content_run b (fun l hl => h b (by simp) l hl) solns []
        (soln_sep :: (blockStream bs ++ rest)),
      scanLoop_cons_sep _ _ _ _ (by decide), List.nil_append,
      ih (fun x hx => h x (by simp [hx])) (solns ++ [pyJoin "\n" (b.map pyStrip)]) rest]
    simp [mkSoln]

end ScanLemmas

/-- C1: for every input stream of the form L1, L2, separator, L3, separator,
search-complete (one line each), the scan returns exactly two solution
blocks, the first being the stripped L1 and L2 joined by a newline and the
second the stripped L3. -/
theorem solns2out_two_blocks_c1 (out l1 l2 l3 : String)
    (H : pySplit '\n' out = [l1, l2, soln_sep, l3, soln_sep, search_complete_msg])
    (h1 : IsContentLine l1) (h2 : IsContentLine l2) (h3 : IsContentLine l3) :
    solns2out_scan out = .ok [pyStrip l1 ++ "\n" ++ pyStrip l2, pyStrip l3] := by
  unfold solns2out_scan
  rw [H, scanLoop_cons_content _ _ _ _ h1, scanLoop_cons_content _ _ _ _ h2,
    scanLoop_cons_sep _ _ _ _ (by decide),
    scanLoop_cons_content _ _ _ _ h3,
    scanLoop_cons_sep _ _ _ _ (by decide),
    scanLoop_cons_complete _ _ _ _ (by decide)]
  simp [pyJoin]

theorem solns2out_two_blocks_c1_witness :
    solns2out_scan "x = 1\ny = 2\n----------\nx = 3\n----------\n==========" =
      .ok ["x = 1\ny = 2", "x = 3"] :=
  solns2out_two_blocks_c1 _ "x = 1" "y = 2" "x = 3"
    (by decide) (by decide) (by decide) (by decide)

/-- C2: a line stripping to one of the three fatal sentinels makes the scan
raise the corresponding distinct error kind at once, independently of any
later lines, returning no solution list; the stream consisting only of the
unsatisfiable sentinel yields the unsatisfiable outcome with an empty
internal solution list. -/
theorem solns2out_fatal_sentinels_c2 :
    (∀ l rest solns curr, pyStrip l = unsat_msg →
        scanLoop solns curr (l :: rest) = .fatal .unsatisfiable solns) ∧
    (∀ l rest solns curr, pyStrip l = unkn_msg →
        scanLoop solns curr (l :: rest) = .fatal .unknown solns) ∧
    (∀ l rest solns curr, pyStrip l = unbnd_msg →
        scanLoop solns curr (l :: rest) = .fatal .unbounded solns) ∧
    solns2out_scan unsat_msg = .fatal .unsatisfiable [] :=
  ⟨fun l rest solns curr h => scanLoop_cons_fatal solns curr l rest .unsatisfiable h,
   fun l rest solns curr h => scanLoop_cons_fatal solns curr l rest .unknown h,
   fun l rest solns curr h => scanLoop_cons_fatal solns curr l rest .unbounded h,
   by decide⟩

theorem solns2out_fatal_sentinels_c2_witness :
    scanLoop [] [] ["=====UNSATISFIABLE=====", "later"] = .fatal .unsatisfiable [] ∧
    scanLoop [] [] ["=====UNKNOWN=====", "later"] = .fatal .unknown [] ∧
    scanLoop [] [] ["=====UNBOUNDED=====", "later"] = .fatal .unbounded [] :=
  ⟨solns2out_fatal_sentinels_c2.1 _ ["later"] [] [] (by decide),
   solns2out_fatal_sentinels_c2.2.1 _ ["later"] [] [] (by decide),
   solns2out_fatal_sentinels_c2.2.2.1 _ ["later"] [] [] (by decide)⟩

/-- C3: the empty stream yields no solutions and no error; a stream that is
separator-closed blocks followed by trailing content lines (a truncated
stream) yields exactly the closed blocks in order, discarding the trailing
accumulator; and the same holds when the trailing content is followed by the
search-complete sentinel and arbitrary further lines. -/
theorem solns2out_success_c3 :
    (solns2out_scan "" = .ok []) ∧
    (∀ out blocks trailing,
      pySplit '\n' out = blockStream blocks ++ trailing →
      (∀ b ∈ blocks, ∀ l ∈ b, IsContentLine l) →
      (∀ l ∈ trailing, IsContentLine l) →
      solns2out_scan out = .ok (blocks.map mkSoln)) ∧
    (∀ out blocks trailing rest,
      pySplit '\n' out = blockStream blocks ++ (trailing ++ search_complete_msg :: rest) →
      (∀ b ∈ blocks, ∀ l ∈ b, IsContentLine l) →
      (∀ l ∈ trailing, IsContentLine l) →
      solns2out_scan out = .ok (blocks.map mkSoln)) := by
  refine ⟨by decide, ?_, ?_⟩
  · intro out blocks trailing H hb ht
    unfold solns2out_scan
    rw [H, scanLoop_blocks blocks hb [] trailing,
      show trailing = trailing ++ [] from (List.append_nil trailing).symm,
      scanLoop_content_run trailing ht _ _ [], scanLoop_nil]
    simp
  · intro out blocks trailing rest H hb ht
    unfold solns2out_scan
    rw [H, scanLoop_blocks blocks hb [] _,
      scanLoop_content_run trailing ht _ _ _,
      scanLoop_cons_complete _ _ _ _ (by decide)]
    simp

theorem solns2out_success_c3_witness :
    solns2out_scan "meta" = .ok [] ∧
    solns2out_scan "a\n----------\ntrail\n==========\njunk" = .ok ["a"] :=
  ⟨solns2out_success_c3.2.1 "meta" [] ["meta"] (by decide)
      (by decide) (by decide),
   solns2out_success_c3.2.2 "a\n----------\ntrail\n==========\njunk"
      [["a"]] ["trail"] ["junk"] (by decide) (by decide) (by decide)⟩

/-- C6: a stream of one or more separator-closed blocks, then trailing
content lines, then a fatal sentinel, makes the scan stop at the sentinel
with the corresponding failure no matter what lines follow; the internal
solution list at the moment of the raise holds exactly the blocks closed
before the sentinel, and the trailing open accumulation is discarded. -/
theorem solns2out_prior_solutions_c6 (out : String) (blocks : List (List String))
    (trailing : List String) (fatalLine : String) (rest : List String) (k : MznOutcome)
    (H : pySplit '\n' out = blockStream blocks ++ (trailing ++ fatalLine :: rest))
    (_hb : blocks ≠ [])
    (hbc : ∀ b ∈ blocks, ∀ l ∈ b, IsContentLine l)
    (ht : ∀ l ∈ trailing, IsContentLine l)
    (hf : pyStrip fatalLine = sentinelOf k) :
    solns2out_scan out = .fatal k (blocks.map mkSoln) := by
  unfold solns2out_scan
  rw [H, scanLoop_blocks blocks hbc [] _,
    scanLoop_content_run trailing ht _ _ _,
    scanLoop_cons_fatal _ _ _ _ k hf]
  simp

theorem solns2out_prior_solutions_c6_witness :
    solns2out_scan "x = 9\n----------\nstats\n=====UNKNOWN=====\njunk" =
      .fatal .unknown ["x = 9"] :=
  solns2out_prior_solutions_c6 _ [["x = 9"]] ["stats"] "=====UNKNOWN====="
    ["junk"] .unknown (by decide) (by decide) (by decide) (by decide) (by decide)

/-- A model of the relevant slice of the filesystem: which paths exist. -/
def FileSys : Type := String → Bool

/-- Creation of a file by an external tool. -/
def createFile (fs : FileSys) (p : String) : FileSys :=
  fun q => if q = p then true else fs q

/-- Deletion of a path. -/
def removeFile (fs : FileSys) (p : String) : FileSys :=
  fun q => if q = p then false else fs q

/-- Python os.remove: deletes the file, or raises FileNotFoundError when
the path is absent. -/
def osRemove (fs : FileSys) (p : String) : Except Unit FileSys :=
  if fs p then .ok (removeFile fs p) else .error ()

/-- One statement `if path: os.remove(path)` of the cleanup blocks; None
and the empty string are falsy in Python, so nothing happens for them. -/
def removeIfTruthy (path : Option String) (fs : FileSys) : Except Unit FileSys :=
  match path with
  | some p => if p = "" then .ok fs else osRemove fs p
  | none => .ok fs

/-- The inner finally of minizinc (lines 113-121): under
contextlib.suppress(FileNotFoundError), remove the fzn file and then the
ozn file; a FileNotFoundError raised by the first removal aborts the
suppressed block, skipping the second removal. -/
def innerCleanupFS (keep : Bool) (fzn_file ozn_file : Option String)
    (fs : FileSys) : FileSys :=
  if keep then fs
  else
    match removeIfTruthy fzn_file fs with
    | .error _ => fs
    | .ok fs1 =>
      match removeIfTruthy ozn_file fs1 with
      | .error _ => fs1
      | .ok fs2 => fs2

/-- The outer finally of minizinc (lines 122-127): under the same
suppression, remove the mzn file. -/
def outerCleanupFS (keep : Bool) (mzn_file : String) (fs : FileSys) : FileSys :=
  if keep then fs
  else
    match removeIfTruthy (some mzn_file) fs with
    | .error _ => fs
    | .ok fs1 => fs1

/-- Index of the last occurrence of a character in a list. -/
def lastIdxOf (c : Char) (cs : List Char) : Option Nat :=
  match cs.reverse.findIdx? (· = c) with
  | none => none
  | some i => some (cs.length - 1 - i)

/-- Python os.path.splitext: split off the extension at the last dot,
provided that dot lies inside the basename and the basename does not
consist solely of leading dots. -/
def splitext (p : String) : String × String :=
  let cs := p.toList
  let sepIdx := lastIdxOf '/' cs
  match lastIdxOf '.' cs with
  | none => (p, "")
  | some d =>
    let inBase := match sepIdx with
      | none => true
      | some s => decide (s < d)
    if inBase then
      let fstart := match sepIdx with
        | none => 0
        | some s => s + 1
      if ((cs.drop fstart).take (d - fstart)).any (fun ch => ch != '.') then
        (String.mk (cs.take d), String.mk (cs.drop d))
      else (p, "")
    else (p, "")

/-- Line 172 of minizinc.py: '.'.join([base, 'fzn']) with base the first
component of splitext(mzn_file). -/
def fznPathOf (mzn_file : String) : String :=
  pyJoin "." [(splitext mzn_file).1, "fzn"]

/-- Line 176 of minizinc.py: '.'.join([base, 'ozn']). -/
def oznPathOf (mzn_file : String) : String :=
  pyJoin "." [(splitext mzn_file).1, "ozn"]

/-- The Python exception classes occurring in minizinc.py, together with
their common ancestor Exception. -/
inductive ExcClass where
  | exceptionBase
  | runtimeErrorClass
  | miniZincUnsatisfiableClass
  | miniZincUnknownClass
  | miniZincUnboundedClass
deriving DecidableEq, Repr

/-- Immediate superclass: the three MiniZinc errors extend RuntimeError
(lines 240, 249, 258), which extends Exception. -/
def ExcClass.parent : ExcClass → Option ExcClass
  | .exceptionBase => none
  | .runtimeErrorClass => some .exceptionBase
  | .miniZincUnsatisfiableClass => some .runtimeErrorClass
  | .miniZincUnknownClass => some .runtimeErrorClass
  | .miniZincUnboundedClass => some .runtimeErrorClass

/-- Subclass test: reflexive, following the parent chain (which here has
height at most two). -/
def ExcClass.isSubclassOf (c d : ExcClass) : Bool :=
  c == d ||
    match c.parent with
    | none => false
    | some p =>
      p == d ||
        match p.parent with
        | none => false
        | some q => q == d

/-- A raised Python exception: its class and its message. -/
structure PyExc where
  cls : ExcClass
  msg : String
deriving DecidableEq, Repr

/-- RuntimeError(msg), as raised on a CalledProcessError from the flatten
and reconstruct tools (lines 168 and 211). -/
def RuntimeError (msg : String) : PyExc := ⟨.runtimeErrorClass, msg⟩

/-- MiniZincUnsatisfiableError(): constructed with no arguments, carrying
its fixed message (lines 240-246). -/
def MiniZincUnsatisfiableError : PyExc :=
  ⟨.miniZincUnsatisfiableClass, "The problem is unsatisfiable."⟩

/-- MiniZincUnknownError() (lines 249-255). -/
def MiniZincUnknownError : PyExc :=
  ⟨.miniZincUnknownClass, "The solution of the problem is unknown."⟩

/-- MiniZincUnboundedError() (lines 258-264). -/
def MiniZincUnboundedError : PyExc :=
  ⟨.miniZincUnboundedClass, "The problem is unbounded."⟩

/-- One external invocation performed by the pipeline, with the artifact
arguments it received. -/
inductive StageCall where
  | flatten
  | solve (fzn_args : List String)
  | reconstruct (ozn_args : List String)
deriving DecidableEq, Repr

/-- State threaded through one orchestrated run: the filesystem and the
trace of external invocations made so far. -/
structure PState where
  fs : FileSys
  calls : List StageCall

/-- Behaviour of the external collaborators during one run.  The flatten
tool either exits zero, creating the fzn and ozn artifacts as its two flags
say (the tool may produce zero, one or both, and creates nothing on a
non-zero exit), or exits non-zero with the given stderr text; no
collaborator touches the artifact paths otherwise.  The solver is the
caller-supplied function, returning raw solver output or raising; the
reconstruct tool maps the solver output to its stdout or exits non-zero
with stderr text. -/
structure ToolEnv where
  mzn2fznExit : Except String Unit
  makesFzn : Bool
  makesOzn : Bool
  solver : Option String → Except PyExc String
  solnsTool : String → Except String String

/-- Modelled from the spec: the solver function (pymzn.mzn.solvers.gecode)
and the command builder (pymzn.bin.cmd) are not under src; per the spec a
downstream stage checks an artifact path for presence before use, so an
absent artifact contributes no argument. -/
def stageArgsFor : Option String → List String
  | some p => [p]
  | none => []

/-- The filesystem effect of a successful flatten-tool run. -/
def mzn2fznFS (env : ToolEnv) (mzn_file : String) (fs : FileSys) : FileSys :=
  let fs1 := if env.makesFzn then createFile fs (fznPathOf mzn_file) else fs
  if env.makesOzn then createFile fs1 (oznPathOf mzn_file) else fs1

/-- mzn2fzn (minizinc.py lines 130-180) in the run model: record the tool
invocation, propagate a non-zero exit as RuntimeError(stderr), and
otherwise probe each candidate output path after the tool ran, returning
None for an absent one. -/
def mzn2fzn_m (env : ToolEnv) (mzn_file : String) (st : PState) :
    PState × Except PyExc (Option String × Option String) :=
  match env.mzn2fznExit with
  | .error stderr =>
    (⟨st.fs, st.calls ++ [StageCall.flatten]⟩, .error (RuntimeError stderr))
  | .ok _ =>
    (⟨mzn2fznFS env mzn_file st.fs, st.calls ++ [StageCall.flatten]⟩,
     .ok (if mzn2fznFS env mzn_file st.fs (fznPathOf mzn_file) then
            some (fznPathOf mzn_file) else none,
          if mzn2fznFS env mzn_file st.fs (oznPathOf mzn_file) then
            some (oznPathOf mzn_file) else none))

/-- Record the reconstruct-tool invocation of solns2out in the trace,
leaving the filesystem untouched. -/
def recordReconstruct (st : PState) (ozn_file : Option String) : PState :=
  ⟨st.fs, st.calls ++ [StageCall.reconstruct (stageArgsFor ozn_file)]⟩

/-- Stage 2 of minizinc (line 106): call the pluggable solver on the fzn
artifact; the spec-modelled argument check appears in the trace. -/
def solveStage (env : ToolEnv) (fzn_file : Option String) (st : PState) :
    PState × Except PyExc String :=
  (⟨st.fs, st.calls ++ [StageCall.solve (stageArgsFor fzn_file)]⟩, env.solver fzn_file)

/-- solns2out (minizinc.py lines 183-237) in the run model: invoke the
reconstruct tool on the solver output, propagating a non-zero exit as
RuntimeError(stderr); then scan the tool output, returning the solution
list or raising the outcome error the scan selected. -/
def solns2out_m (env : ToolEnv) (solns_input : String) (ozn_file : Option String)
    (st : PState) : PState × Except PyExc (List String) :=
  match env.solnsTool solns_input with
  | .error stderr => (recordReconstruct st ozn_file, .error (RuntimeError stderr))
  | .ok out =>
    match solns2out_scan out with
    | .ok solns => (recordReconstruct st ozn_file, .ok solns)
    | .fatal .unknown _ => (recordReconstruct st ozn_file, .error MiniZincUnknownError)
    | .fatal .unsatisfiable _ =>
      (recordReconstruct st ozn_file, .error MiniZincUnsatisfiableError)
    | .fatal .unbounded _ =>
      (recordReconstruct st ozn_file, .error MiniZincUnboundedError)

/-- The body of the inner try of minizinc (lines 105-112): stage 2 then
stage 3, each failure short-circuiting. -/
def innerStages (env : ToolEnv) (fzn_file ozn_file : Option String) (st : PState) :
    PState × Except PyExc (List String) :=
  match solveStage env fzn_file st with
  | (st2, .error e) => (st2, .error e)
  | (st2, .ok solns) => solns2out_m env solns ozn_file st2

/-- minizinc (minizinc.py lines 102-127) from the point where the compiled
model file exists: run mzn2fzn, then the inner stages, with the two nested
finally blocks cleaning up on every exit path.  When mzn2fzn raises, only
the outer finally runs; otherwise the inner finally runs first.  The
parse_dzn decoding pass is outside the model (it does not touch the
filesystem). -/
def minizinc_m (env : ToolEnv) (keep : Bool) (mzn_file : String) (st : PState) :
    PState × Except PyExc (List String) :=
  match mzn2fzn_m env mzn_file st with
  | (st1, .error e) =>
    (⟨outerCleanupFS keep mzn_file st1.fs, st1.calls⟩, .error e)
  | (st1, .ok (fzn_file, ozn_file)) =>
    (⟨outerCleanupFS keep mzn_file (innerCleanupFS keep fzn_file ozn_file
        (innerStages env fzn_file ozn_file st1).1.fs),
      (innerStages env fzn_file ozn_file st1).1.calls⟩,
     (innerStages env fzn_file ozn_file st1).2)

/-- The scan of lines 217-237 as it sits in its runtime context: the code
mentions no part of the ambient tool environment or pipeline state, only
the tool output text. -/
def solns2out_scanUnder (_env : ToolEnv) (_st : PState) (out : String) : ScanResult :=
  solns2out_scan out

section CleanupLemmas

theorem removeIfTruthy_ok_mono (path : Option String) (fs fs1 : FileSys)
    (h : removeIfTruthy path fs = .ok fs1) (q : String) (hq : fs1 q = true) :
    fs q = true := by
  cases path with
  | none =>
    simp [removeIfTruthy] at h
    rwa [h]
  | some p =>
    by_cases hp : p = ""
    · simp [removeIfTruthy, hp] at h
      rwa [h]
    · simp [removeIfTruthy, hp, osRemove] at h
      cases hfp : fs p with
      | false => simp [hfp] at h
      | true =>
        simp [hfp] at h
        rw [← h] at hq
        simp [removeFile] at hq
        exact hq.2

theorem innerCleanupFS_mono (keep : Bool) (f o : Option String) (fs : FileSys)
    (q : String) (h : innerCleanupFS keep f o fs q = true) : fs q = true := by
  unfold innerCleanupFS at h
  cases keep with
  | true => exact h
  | false =>
    simp only [Bool.false_eq_true, if_false] at h
    cases hf : removeIfTruthy f fs with
    | error e => simp only [hf] at h; exact h
    | ok fs1 =>
      simp only [hf] at h
      cases ho : removeIfTruthy o fs1 with
      | error e =>
        simp only [ho] at h
        exact removeIfTruthy_ok_mono f fs fs1 hf q h
      | ok fs2 =>
        simp only [ho] at h
        exact removeIfTruthy_ok_mono f fs fs1 hf q
          (removeIfTruthy_ok_mono o fs1 fs2 ho q h)

theorem outerCleanupFS_mono (keep : Bool) (m : String) (fs : FileSys)
    (q : String) (h : outerCleanupFS keep m fs q = true) : fs q = true := by
  unfold outerCleanupFS at h
  cases keep with
  | true => exact h
  | false =>
    simp only [Bool.false_eq_true, if_false] at h
    cases hf : removeIfTruthy (some m) fs with
    | error e => simp only [hf] at h; exact h
    | ok fs1 =>
      simp only [hf] at h
      exact removeIfTruthy_ok_mono (some m) fs fs1 hf q h

theorem innerCleanupFS_absent (keep : Bool) (f o : Option String) (fs : FileSys)
    (q : String) (h : fs q = false) : innerCleanupFS keep f o fs q = false := by
  cases hr : innerCleanupFS keep f o fs q with
  | false => rfl
  | true => exact absurd (innerCleanupFS_mono keep f o fs q hr) (by simp [h])

theorem outerCleanupFS_absent (keep : Bool) (m : String) (fs : FileSys)
    (q : String) (h : fs q = false) : outerCleanupFS keep m fs q = false := by
  cases hr : outerCleanupFS keep m fs q with
  | false => rfl
  | true => exact absurd (outerCleanupFS_mono keep m fs q hr) (by simp [h])

theorem outerCleanupFS_removes (m : String) (fs : FileSys) (hm : m ≠ "") :
    outerCleanupFS false m fs m = false := by
  cases hfm : fs m with
  | false => simp [outerCleanupFS, removeIfTruthy, osRemove, hm, hfm]
  | true => simp [outerCleanupFS, removeIfTruthy, osRemove, hm, hfm, removeFile]

theorem innerCleanupFS_removes (fs : FileSys) (fzn ozn : String)
    (hf : fzn ≠ "") (ho : ozn ≠ "") :
    innerCleanupFS false (if fs fzn then some fzn else none)
      (if fs ozn then some ozn else none) fs fzn = false ∧
    innerCleanupFS false (if fs fzn then some fzn else none)
      (if fs ozn then some ozn else none) fs ozn = false := by
  cases h1 : fs fzn with
  | false =>
    cases h2 : fs ozn with
    | false => constructor <;> simp [innerCleanupFS, removeIfTruthy, h1, h2]
    | true =>
      constructor <;>
        simp [innerCleanupFS, removeIfTruthy, osRemove, removeFile, ho, h1, h2]
  | true =>
    cases h2 : fs ozn with
    | false =>
      constructor <;>
        simp [innerCleanupFS, removeIfTruthy, osRemove, removeFile, hf, h1, h2]
    | true =>
      by_cases heq : ozn = fzn
      · subst heq
        constructor <;>
          simp [innerCleanupFS, removeIfTruthy, osRemove, removeFile, hf, h1]
      · have heq2 : ¬ fzn = ozn := fun h => heq h.symm
        constructor <;>
          simp [innerCleanupFS, removeIfTruthy, osRemove, removeFile,
            hf, ho, h1, h2, heq, heq2]

theorem innerCleanupFS_idem (f o : Option String) (fs : FileSys) :
    innerCleanupFS false f o (innerCleanupFS false f o fs) =
      innerCleanupFS false f o fs := by
  rcases f with _ | p
  · rcases o with _ | r
    · simp [innerCleanupFS, removeIfTruthy]
    · by_cases hr : r = ""
      · simp [innerCleanupFS, removeIfTruthy, hr]
      · cases hfr : fs r with
        | false => simp [innerCleanupFS, removeIfTruthy, osRemove, hr, hfr]
        | true => simp [innerCleanupFS, removeIfTruthy, osRemove, hr, hfr, removeFile]
  · by_cases hp : p = ""
    · rcases o with _ | r
      · simp [innerCleanupFS, removeIfTruthy, hp]
      · by_cases hr : r = ""
        · simp [innerCleanupFS, removeIfTruthy, hp, hr]
        · cases hfr : fs r with
          | false => simp [innerCleanupFS, removeIfTruthy, osRemove, hp, hr, hfr]
          | true =>
            simp [innerCleanupFS, removeIfTruthy, osRemove, hp, hr, hfr, removeFile]
    · cases hfp : fs p with
      | false =>
        have hcl : innerCleanupFS false (some p) o fs = fs := by
          simp [innerCleanupFS, removeIfTruthy, osRemove, hp, hfp]
        rw [hcl]
        exact hcl
      | true =>
        rcases o with _ | r
        · simp [innerCleanupFS, removeIfTruthy, osRemove, hp, hfp, removeFile]
        · by_cases hr : r = ""
          · simp [innerCleanupFS, removeIfTruthy, osRemove, hp, hfp, hr, removeFile]
          · by_cases hrp : r = p
            · subst hrp
              simp [innerCleanupFS, removeIfTruthy, osRemove, hp, hfp, hr, removeFile]
            · have hpr : ¬ p = r := fun h => hrp h.symm
              cases hfr : fs r with
              | false =>
                simp [innerCleanupFS, removeIfTruthy, osRemove, hp, hfp, hr,
                  hrp, hpr, hfr, removeFile]
              | true =>
                simp [innerCleanupFS, removeIfTruthy, osRemove, hp, hfp, hr,
                  hrp, hpr, hfr, removeFile]

theorem outerCleanupFS_idem (m : String) (fs : FileSys) :
    outerCleanupFS false m (outerCleanupFS false m fs) =
      outerCleanupFS false m fs := by
  by_cases hm : m = ""
  · simp [outerCleanupFS, removeIfTruthy, hm]
  · cases hfm : fs m with
    | false => simp [outerCleanupFS, removeIfTruthy, osRemove, hm, hfm]
    | true => simp [outerCleanupFS, removeIfTruthy, osRemove, hm, hfm, removeFile]

theorem innerCleanupFS_tolerates (p o : String) (fs : FileSys)
    (hp : fs p = false) (ho : fs o = false) :
    innerCleanupFS false (some p) (some o) fs = fs := by
  by_cases hpe : p = "" <;> by_cases hoe : o = "" <;>
    simp [innerCleanupFS, removeIfTruthy, osRemove, hpe, hoe, hp, ho]

theorem innerCleanupFS_none (fs : FileSys) :
    innerCleanupFS false none none fs = fs := by
  simp [innerCleanupFS, removeIfTruthy]

theorem outerCleanupFS_tolerates (m : String) (fs : FileSys) (hm : fs m = false) :
    outerCleanupFS false m fs = fs := by
  by_cases hme : m = "" <;> simp [outerCleanupFS, removeIfTruthy, osRemove, hme, hm]

end CleanupLemmas

section ModelLemmas

theorem append_ne_empty (a b : String) (hb : b.length ≠ 0) : a ++ b ≠ "" := by
  intro h
  have hlen := congrArg String.length h
  rw [String.length_append] at hlen
  have h0 : ("" : String).length = 0 := rfl
  rw [h0] at hlen
  omega

theorem fznPathOf_ne_empty (m : String) : fznPathOf m ≠ "" := by
  show pyJoin "." [(splitext m).1, "fzn"] ≠ ""
  rw [show pyJoin "." [(splitext m).1, "fzn"] = (splitext m).1 ++ "." ++ "fzn" from rfl]
  exact append_ne_empty _ _ (by decide)

theorem oznPathOf_ne_empty (m : String) : oznPathOf m ≠ "" := by
  show pyJoin "." [(splitext m).1, "ozn"] ≠ ""
  rw [show pyJoin "." [(splitext m).1, "ozn"] = (splitext m).1 ++ "." ++ "ozn" from rfl]
  exact append_ne_empty _ _ (by decide)

theorem solns2out_m_fs (env : ToolEnv) (inp : String) (o : Option String)
    (st : PState) : (solns2out_m env inp o st).1.fs = st.fs := by
  unfold solns2out_m
  split
  · rfl
  · split <;> rfl

theorem innerStages_fs (env : ToolEnv) (f o : Option String) (st : PState) :
    (innerStages env f o st).1.fs = st.fs := by
  unfold innerStages solveStage
  split
  · rename_i st2 e heq
    injection heq with h1 h2
    rw [← h1]
  · rename_i st2 solns heq
    injection heq with h1 h2
    rw [solns2out_m_fs, ← h1]

theorem minizinc_m_stage1_error (env : ToolEnv) (keep : Bool) (mzn_file : String)
    (st : PState) (stderr : String) (h : env.mzn2fznExit = .error stderr) :
    minizinc_m env keep mzn_file st =
      (⟨outerCleanupFS keep mzn_file st.fs, st.calls ++ [StageCall.flatten]⟩,
       .error (RuntimeError stderr)) := by
  simp [minizinc_m, mzn2fzn_m, h]

theorem minizinc_m_fs_ok (env : ToolEnv) (keep : Bool) (mzn_file : String)
    (st : PState) (h : env.mzn2fznExit = .ok ()) :
    (minizinc_m env keep mzn_file st).1.fs =
      outerCleanupFS keep mzn_file (innerCleanupFS keep
        (if mzn2fznFS env mzn_file st.fs (fznPathOf mzn_file) then
          some (fznPathOf mzn_file) else none)
        (if mzn2fznFS env mzn_file st.fs (oznPathOf mzn_file) then
          some (oznPathOf mzn_file) else none)
        (mzn2fznFS env mzn_file st.fs)) := by
  simp [minizinc_m, mzn2fzn_m, h, innerStages_fs]

end ModelLemmas

/-- Fixture environment for witnesses: the flatten tool fails. -/
def envFlattenFail : ToolEnv :=
  ⟨.error "flatten failed", false, false, fun _ => .ok "", fun s => .ok s⟩

/-- Fixture environment for witnesses: everything succeeds, both artifacts
are created, the solver emits one solution. -/
def envAllOk : ToolEnv :=
  ⟨.ok (), true, true, fun _ => .ok "x = 1\n----------\n==========", fun s => .ok s⟩

/-- Fixture environment for witnesses: flatten succeeds but produces no ozn
file, and the reconstruct tool reports unsatisfiable. -/
def envNoOzn : ToolEnv :=
  ⟨.ok (), true, false, fun _ => .ok "", fun _ => .ok "=====UNSATISFIABLE====="⟩

/-- Fixture start state for witnesses: only the compiled model file exists
and no external call was made yet. -/
def stModel : PState := ⟨fun q => q == "model.mzn", []⟩

/-- C9: a separator line arriving with an empty accumulator emits the empty
string as a solution block; consecutive separators therefore produce empty
solutions, and blank lines inside a block are kept as empty strings in the
joined block rather than skipped. -/
theorem solns2out_empty_blocks_c9 :
    (∀ solns rest, scanLoop solns [] (soln_sep :: rest) =
        scanLoop (solns ++ [""]) [] rest) ∧
    solns2out_scan "----------\n----------" = .ok ["", ""] ∧
    solns2out_scan "a\n\nb\n----------" = .ok ["a\n\nb"] := by
  refine ⟨?_, by decide, by decide⟩
  intro solns rest
  rw [scanLoop_cons_sep _ _ _ _ (by decide)]
  rfl

/-- C4: with keep false, every exit path of the orchestrated run leaves
none of the model, fzn and ozn artifact files on disk, for a run started
in a working directory without stale artifacts; and each cleanup block is
idempotent and silently tolerates artifacts that are absent or were never
created. -/
theorem minizinc_cleanup_c4 :
    (∀ env mzn_file st, mzn_file ≠ "" →
      st.fs (fznPathOf mzn_file) = false → st.fs (oznPathOf mzn_file) = false →
      ((minizinc_m env false mzn_file st).1.fs mzn_file = false ∧
       (minizinc_m env false mzn_file st).1.fs (fznPathOf mzn_file) = false ∧
       (minizinc_m env false mzn_file st).1.fs (oznPathOf mzn_file) = false)) ∧
    (∀ f o fs, innerCleanupFS false f o (innerCleanupFS false f o fs) =
        innerCleanupFS false f o fs) ∧
    (∀ m fs, outerCleanupFS false m (outerCleanupFS false m fs) =
        outerCleanupFS false m fs) ∧
    (∀ p o fs, fs p = false → fs o = false →
        innerCleanupFS false (some p) (some o) fs = fs) ∧
    (∀ fs, innerCleanupFS false none none fs = fs) ∧
    (∀ m fs, fs m = false → outerCleanupFS false m fs = fs) := by
  refine ⟨?_, innerCleanupFS_idem, outerCleanupFS_idem, innerCleanupFS_tolerates,
    innerCleanupFS_none, outerCleanupFS_tolerates⟩
  intro env mzn_file st hm hf ho
  rcases hex : env.mzn2fznExit with stderr | u
  · rw [minizinc_m_stage1_error env false mzn_file st stderr hex]
    exact ⟨outerCleanupFS_removes mzn_file st.fs hm,
      outerCleanupFS_absent false mzn_file st.fs _ hf,
      outerCleanupFS_absent false mzn_file st.fs _ ho⟩
  · cases u
    rw [minizinc_m_fs_ok env false mzn_file st hex]
    have hrem := innerCleanupFS_removes (mzn2fznFS env mzn_file st.fs)
      (fznPathOf mzn_file) (oznPathOf mzn_file)
      (fznPathOf_ne_empty mzn_file) (oznPathOf_ne_empty mzn_file)
    exact ⟨outerCleanupFS_removes mzn_file _ hm,
      outerCleanupFS_absent false mzn_file _ _ hrem.1,
      outerCleanupFS_absent false mzn_file _ _ hrem.2⟩

theorem minizinc_cleanup_c4_witness :
    (minizinc_m envAllOk false "model.mzn" stModel).1.fs "model.mzn" = false ∧
    (minizinc_m envAllOk false "model.mzn" stModel).1.fs (fznPathOf "model.mzn") = false ∧
    (minizinc_m envAllOk false "model.mzn" stModel).1.fs (oznPathOf "model.mzn") = false :=
  minizinc_cleanup_c4.1 envAllOk "model.mzn" stModel (by decide) (by decide) (by decide)

/-- C5: when the flatten tool exits non-zero, the run raises RuntimeError
carrying the captured stderr text verbatim as its message, invokes neither
the solver stage nor the reconstruct stage, and still removes the model
artifact unless keep was requested. -/
theorem minizinc_stage1_failure_c5 (env : ToolEnv) (keep : Bool) (mzn_file : String)
    (st : PState) (stderr : String) (h : env.mzn2fznExit = .error stderr) :
    (minizinc_m env keep mzn_file st).2 = .error (RuntimeError stderr) ∧
    (RuntimeError stderr).msg = stderr ∧
    (minizinc_m env keep mzn_file st).1.calls = st.calls ++ [StageCall.flatten] ∧
    (keep = false → mzn_file ≠ "" →
      (minizinc_m env keep mzn_file st).1.fs mzn_file = false) ∧
    (keep = true → (minizinc_m env keep mzn_file st).1.fs = st.fs) := by
  rw [minizinc_m_stage1_error env keep mzn_file st stderr h]
  refine ⟨rfl, rfl, rfl, ?_, ?_⟩
  · intro hk hm
    subst hk
    exact outerCleanupFS_removes mzn_file st.fs hm
  · intro hk
    subst hk
    rfl

theorem minizinc_stage1_failure_c5_witness :
    (minizinc_m envFlattenFail false "model.mzn" stModel).2 =
      .error (RuntimeError "flatten failed") ∧
    (minizinc_m envFlattenFail false "model.mzn" stModel).1.fs "model.mzn" = false :=
  ⟨(minizinc_stage1_failure_c5 envFlattenFail false "model.mzn" stModel
      "flatten failed" rfl).1,
   (minizinc_stage1_failure_c5 envFlattenFail false "model.mzn" stModel
      "flatten failed" rfl).2.2.2.1 rfl (by decide)⟩

/-- C7: the solution stream scan is a pure deterministic function of the
input text: placed in its runtime context it reads nothing from the tool
environment or the pipeline state, and scanning the same text twice yields
identical results. -/
theorem parser_pure_c7 :
    (∀ env1 st1 env2 st2 out,
      solns2out_scanUnder env1 st1 out = solns2out_scanUnder env2 st2 out) ∧
    (∀ out, solns2out_scan out = solns2out_scan out) :=
  ⟨fun _ _ _ _ _ => rfl, fun _ => rfl⟩

/-- C8: when the flatten tool exits zero, mzn2fzn raises nothing and
returns, for each artifact, its path when the file exists on disk after
the run and None otherwise; the spec-modelled downstream argument builder
used by the solve and reconstruct stages passes a present path along and
omits an absent one. -/
theorem mzn2fzn_missing_artifact_c8 (env : ToolEnv) (mzn_file : String) (st : PState)
    (h : env.mzn2fznExit = .ok ()) :
    (mzn2fzn_m env mzn_file st).2 =
      .ok (if (mzn2fzn_m env mzn_file st).1.fs (fznPathOf mzn_file) then
             some (fznPathOf mzn_file) else none,
           if (mzn2fzn_m env mzn_file st).1.fs (oznPathOf mzn_file) then
             some (oznPathOf mzn_file) else none) ∧
    stageArgsFor none = [] ∧ (∀ p, stageArgsFor (some p) = [p]) := by
  refine ⟨?_, rfl, fun p => rfl⟩
  simp [mzn2fzn_m, h]

theorem mzn2fzn_missing_artifact_c8_witness :
    (mzn2fzn_m envNoOzn "model.mzn" stModel).2 =
      .ok (if (mzn2fzn_m envNoOzn "model.mzn" stModel).1.fs (fznPathOf "model.mzn") then
             some (fznPathOf "model.mzn") else none,
           if (mzn2fzn_m envNoOzn "model.mzn" stModel).1.fs (oznPathOf "model.mzn") then
             some (oznPathOf "model.mzn") else none) ∧
    stageArgsFor none = [] ∧ (∀ p, stageArgsFor (some p) = [p]) :=
  mzn2fzn_missing_artifact_c8 envNoOzn "model.mzn" stModel rfl

/-- C10: every failure raised by the pipeline is an instance of
RuntimeError: the three outcome errors are its subclasses, each
constructed without arguments and carrying its fixed constant message, the
wrapped tool failures are RuntimeError carrying the stderr text, and
matching only the common class cannot separate an infrastructure fault
from an outcome error since both are caught by it while their classes
differ. -/
theorem errors_common_type_c10 :
    (MiniZincUnsatisfiableError.cls.isSubclassOf .runtimeErrorClass = true ∧
     MiniZincUnsatisfiableError.msg = "The problem is unsatisfiable.") ∧
    (MiniZincUnknownError.cls.isSubclassOf .runtimeErrorClass = true ∧
     MiniZincUnknownError.msg = "The solution of the problem is unknown.") ∧
    (MiniZincUnboundedError.cls.isSubclassOf .runtimeErrorClass = true ∧
     MiniZincUnboundedError.msg = "The problem is unbounded.") ∧
    (∀ m, (RuntimeError m).cls.isSubclassOf .runtimeErrorClass = true ∧
      (RuntimeError m).msg = m) ∧
    (∀ env mzn_file st e, (mzn2fzn_m env mzn_file st).2 = .error e →
      e.cls.isSubclassOf .runtimeErrorClass = true) ∧
    (∀ env inp o st e, (solns2out_m env inp o st).2 = .error e →
      e.cls.isSubclassOf .runtimeErrorClass = true) ∧
    (∀ m, MiniZincUnsatisfiableError.cls ≠ (RuntimeError m).cls) := by
  refine ⟨⟨by decide, rfl⟩, ⟨by decide, rfl⟩, ⟨by decide, rfl⟩,
    fun m => ⟨rfl, rfl⟩, ?_, ?_, fun m h => ExcClass.noConfusion h⟩
  · intro env mzn_file st e he
    rcases hex : env.mzn2fznExit with stderr | u
    · simp [mzn2fzn_m, hex] at he
      subst he
      rfl
    · cases u
      simp [mzn2fzn_m, hex] at he
  · intro env inp o st e he
    unfold solns2out_m at he
    split at he
    · injection he with h1
      subst h1
      rfl
    · split at he
      · injection he
      · injection he with h1
        subst h1
        rfl
      · injection he with h1
        subst h1
        rfl
      · injection he with h1
        subst h1
        rfl

theorem errors_common_type_c10_witness :
    (RuntimeError "flatten failed").cls.isSubclassOf .runtimeErrorClass = true ∧
    MiniZincUnsatisfiableError.cls.isSubclassOf .runtimeErrorClass = true :=
  ⟨errors_common_type_c10.2.2.2.2.1 envFlattenFail "model.mzn" stModel
      (RuntimeError "flatten failed") rfl,
   errors_common_type_c10.2.2.2.2.2.1 envNoOzn "" none stModel
      MiniZincUnsatisfiableError rfl⟩

end PyMzn
